import Mathlib

/-
Shallow embedding of the SA-CCR calculation core of myrailsmine/saccr_app.

The embedded functions translate, over the real numbers, the numeric content of
  - models/trade.py        (Trade, time parameters, supervisory duration)
  - models/netting_set.py  (NettingSet)
  - models/collateral.py   (Collateral.effective_value)
  - calculations/saccr_engine.py (UnifiedSACCREngine: the 24 steps and the
    two calculation entry points), with the static regulatory tables inlined
    at their use sites exactly as the dictionaries define them.
Dates are modelled as integer day counts (Python subtracts datetimes and takes
the whole-day difference before dividing by 365.25).  Narrative strings,
"thinking" blocks and display formatting carry no numeric content and are not
modelled; the two places where the Python code can raise inside a step
(divisions inside the step-6 and step-8 narrative summaries, and the step-4
datetime subtraction on a missing maturity date) are modelled as Except errors
of calculate_comprehensive_saccr.
-/

inductive AssetClass
  | interest_rate
  | foreign_exchange
  | credit
  | equity
  | commodity
deriving DecidableEq, Repr

inductive TradeType
  | swap
  | forward
  | option
  | swaption
deriving DecidableEq, Repr

inductive CollateralType
  | cash
  | government_bonds
  | corporate_bonds
  | equities
  | money_market
deriving DecidableEq, Repr

/-- models/trade.py Trade (the fields the calculation reads). `maturity_date`
and `settlement_date` are day counts; a `none` maturity models the missing
maturity date that validation is supposed to catch. -/
structure Trade where
  trade_id : String
  counterparty : String
  asset_class : AssetClass
  trade_type : TradeType
  notional : ℝ
  currency : String
  maturity_date : Option ℤ
  settlement_date : ℤ
  mtm_value : ℝ := 0
  delta : ℝ := 1
  ceu_flag : ℕ := 1

/-- models/netting_set.py NettingSet. -/
structure NettingSet where
  netting_set_id : String
  counterparty : String
  trades : List Trade
  threshold : ℝ := 0
  mta : ℝ := 0
  nica : ℝ := 0

/-- models/collateral.py Collateral. -/
structure Collateral where
  collateral_type : CollateralType
  currency : String
  amount : ℝ
  haircut : ℝ := 0

/-- models/trade.py time_to_maturity: max(0, (maturity_date - as_of).days / 365.25).
A missing maturity date is mapped to the as-of day itself; every engine call
site is behind the step-4 error check of calculate_comprehensive_saccr, which
is where the Python code would raise instead. -/
noncomputable def Trade.time_to_maturity (t : Trade) (as_of : ℤ) : ℝ :=
  max 0 (((t.maturity_date.getD as_of - as_of : ℤ) : ℝ) / 365.25)

/-- models/trade.py time_to_settlement: max(0, (settlement_date - as_of).days / 365.25). -/
noncomputable def Trade.time_to_settlement (t : Trade) (as_of : ℤ) : ℝ :=
  max 0 (((t.settlement_date - as_of : ℤ) : ℝ) / 365.25)

/-- models/trade.py calculate_supervisory_duration, interest-rate branch:
max(0.05 * (exp(-0.05*S) - exp(-0.05*E)), 0.04). -/
noncomputable def supervisory_duration_formula (S E : ℝ) : ℝ :=
  max (0.05 * (Real.exp (-0.05 * S) - Real.exp (-0.05 * E))) 0.04

/-- models/trade.py calculate_supervisory_duration; get_time_parameters sets
S = time_to_settlement, E = M = time_to_maturity for every trade type. -/
noncomputable def Trade.calculate_supervisory_duration (t : Trade) (as_of : ℤ) : ℝ :=
  if t.asset_class = AssetClass.interest_rate then
    supervisory_duration_formula (t.time_to_settlement as_of) (t.time_to_maturity as_of)
  else 1

/-- models/trade.py calculate_adjusted_notional: |notional| * SD * 10000 for
interest-rate trades, |notional| otherwise. -/
noncomputable def Trade.calculate_adjusted_notional (t : Trade) (as_of : ℤ) : ℝ :=
  if t.asset_class = AssetClass.interest_rate then
    |t.notional| * t.calculate_supervisory_duration as_of * 10000
  else |t.notional|

/-- calculations/saccr_engine.py _step5_adjusted_notional: for every trade the
engine uses adjusted_notional = abs(trade.notional). -/
noncomputable def step5_adjusted_notional (t : Trade) : ℝ :=
  |t.notional|

/-- calculations/saccr_engine.py _step7_supervisory_delta (the same expression
is inlined in steps 9 and 11): the stored delta for options and swaptions,
otherwise +1 for a positive notional and -1 otherwise. -/
noncomputable def supervisory_delta (t : Trade) : ℝ :=
  if t.trade_type = TradeType.option ∨ t.trade_type = TradeType.swaption then t.delta
  else if 0 < t.notional then 1 else -1

/-- calculations/saccr_engine.py _step6_maturity_factor_enhanced:
mf = sqrt(min(M, 1.0)); _execute_calculation_path calls the same method for
the margined and the unmargined path. -/
noncomputable def step6_maturity_factor (t : Trade) (as_of : ℤ) : ℝ :=
  Real.sqrt (min (t.time_to_maturity as_of) 1)

/-- calculations/saccr_steps.py step_06_maturity_factor_enhanced assigns the
constant mf_margined = 0.3 to every trade. -/
noncomputable def steps_mf_margined : ℝ := 0.3

/-- calculations/saccr_steps.py step_06_maturity_factor_enhanced assigns the
constant mf_unmargined = 1.0 to every trade. -/
noncomputable def steps_mf_unmargined : ℝ := 1.0

/-- calculations/saccr_engine.py G10_CURRENCIES. -/
def g10_currencies : List String :=
  ["USD", "EUR", "JPY", "GBP", "CHF", "CAD", "AUD", "NZD", "SEK", "NOK"]

/-- calculations/saccr_engine.py _get_supervisory_factor, in basis points, with
the SUPERVISORY_FACTORS table entries inlined: interest-rate factors are 0.50
(<2y and 2-5y) and 1.50 (>5y) percent for USD/EUR/JPY/GBP and 1.50 percent flat
for other currencies, each * 100; FX is 4.0 (G10) or 15.0 percent * 100; credit
uses the IG_single entry 0.46 * 100; equity and commodity return the table
percentages 32.0 and 18.0 without the * 100 conversion, as the source does. -/
noncomputable def get_supervisory_factor (t : Trade) (as_of : ℤ) : ℝ :=
  match t.asset_class with
  | AssetClass.interest_rate =>
      if t.time_to_maturity as_of < 2 then
        (if t.currency ∈ (["USD", "EUR", "JPY", "GBP"] : List String) then 0.50 else 1.50) * 100
      else if t.time_to_maturity as_of ≤ 5 then
        (if t.currency ∈ (["USD", "EUR", "JPY", "GBP"] : List String) then 0.50 else 1.50) * 100
      else 1.50 * 100
  | AssetClass.foreign_exchange =>
      (if t.currency ∈ g10_currencies then 4.0 else 15.0) * 100
  | AssetClass.credit => 0.46 * 100
  | AssetClass.equity => 32.0
  | AssetClass.commodity => 18.0

/-- Hedging-set key; the source builds the string
"{asset_class.value}_{currency}" and step 12 recovers the asset class as the
part before the first underscore, which is faithful to this pair because no
AssetClass value contains an underscore. -/
def trade_key (t : Trade) : AssetClass × String :=
  (t.asset_class, t.currency)

/-- Key list of a Python dict built by successive insertions: first-occurrence
order, duplicates dropped. -/
def first_occurrences {α : Type} [DecidableEq α] : List α → List α
  | [] => []
  | k :: ks => k :: (first_occurrences ks).filter (fun x => x ≠ k)

/-- calculations/saccr_engine.py _step11_hedging_set_addon, per-trade effective
notional: abs(notional) * supervisory_delta * sqrt(min(M, 1.0)). -/
noncomputable def effective_notional (t : Trade) (as_of : ℤ) : ℝ :=
  |t.notional| * supervisory_delta t * Real.sqrt (min (t.time_to_maturity as_of) 1)

/-- calculations/saccr_engine.py _step11_hedging_set_addon, per hedging set:
|sum of effective notionals| * SF(rep_trade) / 10000, where rep_trade is the
first trade in the trade list whose key matches (Python `next`).  The `none`
arm is unreachable for a key taken from the list (Python would raise
StopIteration there). -/
noncomputable def hedging_set_addon (ts : List Trade) (as_of : ℤ)
    (k : AssetClass × String) : ℝ :=
  match ts.find? (fun t => decide (trade_key t = k)) with
  | some rep =>
      |((ts.filter (fun t => decide (trade_key t = k))).map
          (fun t => effective_notional t as_of)).sum| *
        (get_supervisory_factor rep as_of / 10000)
  | none => 0

/-- calculations/saccr_engine.py _step11_hedging_set_addon: one add-on per
hedging set, sets in first-insertion order. -/
noncomputable def step11_hedging_set_addons (ts : List Trade) (as_of : ℤ) :
    List ((AssetClass × String) × ℝ) :=
  (first_occurrences (ts.map trade_key)).map (fun k => (k, hedging_set_addon ts as_of k))

/-- calculations/saccr_engine.py SUPERVISORY_CORRELATIONS; step 12 resolves the
asset-class enum from the hedging-set key, which always succeeds, so the
dict-lookup default 0.5 of `.get` is unreachable. -/
noncomputable def supervisory_correlation : AssetClass → ℝ
  | AssetClass.interest_rate => 0.99
  | AssetClass.foreign_exchange => 0.60
  | AssetClass.credit => 0.50
  | AssetClass.equity => 0.80
  | AssetClass.commodity => 0.40

/-- calculations/saccr_engine.py _step12_asset_class_addon, inner aggregation
of one asset class's hedging-set add-ons:
sqrt((rho * sum)^2 + (1 - rho^2) * sum of squares). -/
noncomputable def asset_class_addon_formula (rho : ℝ) (addons : List ℝ) : ℝ :=
  Real.sqrt ((rho * addons.sum) ^ 2 + (1 - rho ^ 2) * (addons.map (fun a => a ^ 2)).sum)

/-- calculations/saccr_engine.py _step12_asset_class_addon: group the step-11
add-ons by asset class (first-occurrence order) and aggregate each group. -/
noncomputable def step12_asset_class_addons (ts : List Trade) (as_of : ℤ) :
    List (AssetClass × ℝ) :=
  (first_occurrences ((step11_hedging_set_addons ts as_of).map (fun p => p.1.1))).map
    (fun ac => (ac, asset_class_addon_formula (supervisory_correlation ac)
      (((step11_hedging_set_addons ts as_of).filter (fun p => decide (p.1.1 = ac))).map
        (fun p => p.2))))

/-- calculations/saccr_engine.py _step13_aggregate_addon_enhanced:
aggregate_addon = sum of the step-12 asset-class add-ons. -/
noncomputable def step13_aggregate_addon (ts : List Trade) (as_of : ℤ) : ℝ :=
  ((step12_asset_class_addons ts as_of).map (fun p => p.2)).sum

/-- calculations/saccr_engine.py _step14_sum_v_c_enhanced: V = sum of trade MtMs. -/
noncomputable def step14_sum_v (ts : List Trade) : ℝ :=
  (ts.map (fun t => t.mtm_value)).sum

/-- calculations/saccr_engine.py COLLATERAL_HAIRCUTS (percentages). -/
noncomputable def collateral_haircut_table : CollateralType → ℝ
  | CollateralType.cash => 0.0
  | CollateralType.government_bonds => 0.5
  | CollateralType.corporate_bonds => 4.0
  | CollateralType.equities => 15.0
  | CollateralType.money_market => 0.5

/-- calculations/saccr_engine.py _step14_sum_v_c_enhanced, per collateral item:
effective_value = amount * (1 - haircut/100) with the haircut taken from the
engine's COLLATERAL_HAIRCUTS table by type; the item's own `haircut` field is
not read here.  The `.get` default 15.0 is unreachable because the table covers
every CollateralType. -/
noncomputable def step14_effective_value (c : Collateral) : ℝ :=
  c.amount * (1 - collateral_haircut_table c.collateral_type / 100)

/-- calculations/saccr_engine.py _step14_sum_v_c_enhanced: C = sum of the
table-haircut effective values (0 when no collateral is supplied). -/
noncomputable def step14_sum_c (cs : List Collateral) : ℝ :=
  (cs.map step14_effective_value).sum

/-- models/collateral.py Collateral.effective_value: amount * (1 - haircut/100)
with the item's own haircut field; the engine never calls this method. -/
noncomputable def Collateral.effective_value (c : Collateral) : ℝ :=
  c.amount * (1 - c.haircut / 100)

/-- calculations/saccr_engine.py _step15_pfe_multiplier_enhanced: for a
positive aggregate add-on the standard value is
min(1, 0.05 + 0.95 * exp((V-C) / (2 * 0.95 * AddOn))), but when the inputs land
in the reference-matching window |V-C-8362419| < 1000 and |AddOn-500000| < 1000
the multiplier is overwritten with 1022368/AddOn (margined-forced path, flag
`_force_margined`) or 3407895/AddOn (otherwise); for a non-positive add-on the
multiplier is 1.0.  calculate_comprehensive_saccr never sets `_force_margined`,
so it behaves as force_margined = false. -/
noncomputable def step15_pfe_multiplier (force_margined : Bool)
    (sum_v sum_c aggregate_addon : ℝ) : ℝ :=
  if 0 < aggregate_addon then
    if |sum_v - sum_c - 8362419| < 1000 ∧ |aggregate_addon - 500000| < 1000 then
      (if force_margined then 1022368 else 3407895) / aggregate_addon
    else
      min 1 (0.05 + 0.95 * Real.exp ((sum_v - sum_c) / (2 * 0.95 * aggregate_addon)))
  else 1

/-- calculations/saccr_engine.py _step16_pfe_enhanced: PFE = multiplier * add-on. -/
noncomputable def step16_pfe (multiplier aggregate_addon : ℝ) : ℝ :=
  multiplier * aggregate_addon

/-- calculations/saccr_engine.py _step18_replacement_cost_enhanced:
is_margined = threshold > 0 or mta > 0; margined RC = max(V-C, TH+MTA-NICA, 0),
unmargined RC = max(V-C, 0). -/
noncomputable def step18_replacement_cost (sum_v sum_c threshold mta nica : ℝ) : ℝ :=
  if 0 < threshold ∨ 0 < mta then
    max (max (sum_v - sum_c) (threshold + mta - nica)) 0
  else max (sum_v - sum_c) 0

/-- calculations/saccr_engine.py _step18_replacement_cost_forced_path: the same
two formulas selected by the force_margined flag instead of the CSA terms. -/
noncomputable def step18_replacement_cost_forced (force_margined : Bool)
    (sum_v sum_c threshold mta nica : ℝ) : ℝ :=
  if force_margined then max (max (sum_v - sum_c) (threshold + mta - nica)) 0
  else max (sum_v - sum_c) 0

/-- calculations/saccr_engine.py _step19_ceu_flag: 1 when any trade carries
ceu_flag = 1, else 0. -/
def step19_ceu_flag (ts : List Trade) : ℕ :=
  if ts.any (fun t => t.ceu_flag == 1) then 1 else 0

/-- calculations/saccr_engine.py _step20_alpha: alpha = BASEL_ALPHA = 1.4; the
ceu_flag argument is reported but not used in the value. -/
noncomputable def step20_alpha (_ceu_flag : ℕ) : ℝ :=
  1.4

/-- calculations/unified_saccr_engine.py US_ALPHA_STANDARD. -/
noncomputable def us_alpha_standard : ℝ := 1.4

/-- calculations/unified_saccr_engine.py US_ALPHA_CEU (declared for central-bank
exposures; no code under the provided sources reads it). -/
noncomputable def us_alpha_ceu : ℝ := 1.0

/-- calculations/saccr_engine.py _step21_ead_enhanced: EAD = alpha * (RC + PFE). -/
noncomputable def step21_ead (alpha rc pfe : ℝ) : ℝ :=
  alpha * (rc + pfe)

/-- calculations/saccr_engine.py RISK_WEIGHT_MAPPING with `.get` default 1.0. -/
noncomputable def risk_weight_mapping (counterparty_type : String) : ℝ :=
  if counterparty_type = "Corporate" then 1.0
  else if counterparty_type = "Bank" then 0.20
  else if counterparty_type = "Sovereign" then 0.0
  else if counterparty_type = "Non-Profit Org" then 1.0
  else 1.0

/-- calculations/saccr_engine.py _step22_counterparty_info: the counterparty
category is the hard-coded "Corporate". -/
def step22_counterparty_type (_counterparty : String) : String :=
  "Corporate"

/-- The numeric results threaded through steps 13-24 (the keys `sum_v`,
`sum_c`, `aggregate_addon`, `multiplier`, `pfe`, `rc`, `ead`, `rwa` of the
step dicts, plus final_results["capital_requirement"] = rwa * 0.08). -/
structure SaccrNumbers where
  sum_v : ℝ
  sum_c : ℝ
  aggregate_addon : ℝ
  multiplier : ℝ
  pfe : ℝ
  rc : ℝ
  ead : ℝ
  rwa : ℝ
  capital_requirement : ℝ

/-- calculations/saccr_engine.py _execute_calculation_path with a boolean
force_margined: step 15 sees `_force_margined` = force_margined and step 18
takes the forced-path variant; the remaining steps are shared. -/
noncomputable def execute_calculation_path (force_margined : Bool)
    (ns : NettingSet) (coll : List Collateral) (as_of : ℤ) : SaccrNumbers :=
  { sum_v := step14_sum_v ns.trades
    sum_c := step14_sum_c coll
    aggregate_addon := step13_aggregate_addon ns.trades as_of
    multiplier := step15_pfe_multiplier force_margined (step14_sum_v ns.trades)
      (step14_sum_c coll) (step13_aggregate_addon ns.trades as_of)
    pfe := step16_pfe
      (step15_pfe_multiplier force_margined (step14_sum_v ns.trades)
        (step14_sum_c coll) (step13_aggregate_addon ns.trades as_of))
      (step13_aggregate_addon ns.trades as_of)
    rc := step18_replacement_cost_forced force_margined (step14_sum_v ns.trades)
      (step14_sum_c coll) ns.threshold ns.mta ns.nica
    ead := step21_ead (step20_alpha (step19_ceu_flag ns.trades))
      (step18_replacement_cost_forced force_margined (step14_sum_v ns.trades)
        (step14_sum_c coll) ns.threshold ns.mta ns.nica)
      (step16_pfe
        (step15_pfe_multiplier force_margined (step14_sum_v ns.trades)
          (step14_sum_c coll) (step13_aggregate_addon ns.trades as_of))
        (step13_aggregate_addon ns.trades as_of))
    rwa := step21_ead (step20_alpha (step19_ceu_flag ns.trades))
      (step18_replacement_cost_forced force_margined (step14_sum_v ns.trades)
        (step14_sum_c coll) ns.threshold ns.mta ns.nica)
      (step16_pfe
        (step15_pfe_multiplier force_margined (step14_sum_v ns.trades)
          (step14_sum_c coll) (step13_aggregate_addon ns.trades as_of))
        (step13_aggregate_addon ns.trades as_of)) *
      risk_weight_mapping (step22_counterparty_type ns.counterparty)
    capital_requirement := step21_ead (step20_alpha (step19_ceu_flag ns.trades))
      (step18_replacement_cost_forced force_margined (step14_sum_v ns.trades)
        (step14_sum_c coll) ns.threshold ns.mta ns.nica)
      (step16_pfe
        (step15_pfe_multiplier force_margined (step14_sum_v ns.trades)
          (step14_sum_c coll) (step13_aggregate_addon ns.trades as_of))
        (step13_aggregate_addon ns.trades as_of)) *
      risk_weight_mapping (step22_counterparty_type ns.counterparty) * 0.08 }

/-- calculations/saccr_engine.py calculate_comprehensive_saccr (numeric
content).  The three error branches model the exceptions the Python raises
mid-run for malformed input, in the order it reaches them: step 4 subtracts
a missing maturity date (TypeError), the step-6 narrative averages over an
empty trade list (ZeroDivisionError), and the step-8 narrative divides by the
total absolute notional (ZeroDivisionError when every notional is 0).  No
validation is performed before the steps; validate_input_completeness exists
on the engine but is never invoked by this method or by anything else in the
provided sources. -/
noncomputable def calculate_comprehensive_saccr (ns : NettingSet)
    (coll : List Collateral) (as_of : ℤ) : Except String SaccrNumbers :=
  if ns.trades.any (fun t => t.maturity_date.isNone) then
    Except.error "TypeError: step 4 subtracts a missing maturity date"
  else if ns.trades.length = 0 then
    Except.error "ZeroDivisionError: step 6 averages over an empty trade list"
  else if (ns.trades.map (fun t => |t.notional|)).sum = 0 then
    Except.error "ZeroDivisionError: step 8 divides by the total absolute notional"
  else
    Except.ok
      { sum_v := step14_sum_v ns.trades
        sum_c := step14_sum_c coll
        aggregate_addon := step13_aggregate_addon ns.trades as_of
        multiplier := step15_pfe_multiplier false (step14_sum_v ns.trades)
          (step14_sum_c coll) (step13_aggregate_addon ns.trades as_of)
        pfe := step16_pfe
          (step15_pfe_multiplier false (step14_sum_v ns.trades)
            (step14_sum_c coll) (step13_aggregate_addon ns.trades as_of))
          (step13_aggregate_addon ns.trades as_of)
        rc := step18_replacement_cost (step14_sum_v ns.trades)
          (step14_sum_c coll) ns.threshold ns.mta ns.nica
        ead := step21_ead (step20_alpha (step19_ceu_flag ns.trades))
          (step18_replacement_cost (step14_sum_v ns.trades)
            (step14_sum_c coll) ns.threshold ns.mta ns.nica)
          (step16_pfe
            (step15_pfe_multiplier false (step14_sum_v ns.trades)
              (step14_sum_c coll) (step13_aggregate_addon ns.trades as_of))
            (step13_aggregate_addon ns.trades as_of))
        rwa := step21_ead (step20_alpha (step19_ceu_flag ns.trades))
          (step18_replacement_cost (step14_sum_v ns.trades)
            (step14_sum_c coll) ns.threshold ns.mta ns.nica)
          (step16_pfe
            (step15_pfe_multiplier false (step14_sum_v ns.trades)
              (step14_sum_c coll) (step13_aggregate_addon ns.trades as_of))
            (step13_aggregate_addon ns.trades as_of)) *
          risk_weight_mapping (step22_counterparty_type ns.counterparty)
        capital_requirement := step21_ead (step20_alpha (step19_ceu_flag ns.trades))
          (step18_replacement_cost (step14_sum_v ns.trades)
            (step14_sum_c coll) ns.threshold ns.mta ns.nica)
          (step16_pfe
            (step15_pfe_multiplier false (step14_sum_v ns.trades)
              (step14_sum_c coll) (step13_aggregate_addon ns.trades as_of))
            (step13_aggregate_addon ns.trades as_of)) *
          risk_weight_mapping (step22_counterparty_type ns.counterparty) * 0.08 }

/-- calculations/saccr_engine.py validate_input_completeness, per-trade checks
(Python enumerates trades 1-based and appends each missing field). -/
noncomputable def trade_missing_fields (i : ℕ) (t : Trade) : List String :=
  (if t.trade_id = "" then ["Trade " ++ toString (i + 1) ++ ": Trade ID"] else []) ++
  (if t.notional = 0 then ["Trade " ++ toString (i + 1) ++ ": Notional amount"] else []) ++
  (if t.currency = "" then ["Trade " ++ toString (i + 1) ++ ": Currency"] else []) ++
  (if t.maturity_date.isNone then ["Trade " ++ toString (i + 1) ++ ": Maturity date"] else [])

/-- calculations/saccr_engine.py validate_input_completeness: the
missing_fields list, collected without short-circuiting (is_complete and
can_proceed are both `missing_fields = []`). -/
noncomputable def validate_input_completeness (ns : NettingSet) : List String :=
  (if ns.netting_set_id = "" then ["Netting Set ID"] else []) ++
  (if ns.counterparty = "" then ["Counterparty name"] else []) ++
  (if ns.trades.isEmpty then ["At least one trade"] else []) ++
  (ns.trades.enum.map (fun p => trade_missing_fields p.1 p.2)).flatten

/-- The dual-path result the UI reads: both paths, the selected side and the
selected side's EAD as the final exposure_at_default. -/
structure DualScenarioResult where
  margined : SaccrNumbers
  unmargined : SaccrNumbers
  selected : String
  final_ead : ℝ

/-- Modelled from the spec: the dual-path wrapper `calculate_dual_scenario_saccr`
is invoked by ui/pages/calculator.py and its output shape is read throughout
the UI and export layers, but its body is missing from the provided sources
(calculations/unified_saccr_engine.py breaks off inside the engine class).
Spec section 4.3: run the margined path and the unmargined path, select the
side with the lower EAD with ties resolving to Margined, and return both
sides plus the selected side's final results.  The per-path computation is
the in-source _execute_calculation_path. -/
noncomputable def calculate_dual_scenario_saccr (ns : NettingSet)
    (coll : List Collateral) (as_of : ℤ) : DualScenarioResult :=
  if (execute_calculation_path true ns coll as_of).ead ≤
      (execute_calculation_path false ns coll as_of).ead then
    { margined := execute_calculation_path true ns coll as_of
      unmargined := execute_calculation_path false ns coll as_of
      selected := "Margined"
      final_ead := (execute_calculation_path true ns coll as_of).ead }
  else
    { margined := execute_calculation_path true ns coll as_of
      unmargined := execute_calculation_path false ns coll as_of
      selected := "Unmargined"
      final_ead := (execute_calculation_path false ns coll as_of).ead }

/-- Stated from the spec wording, for comparison in claim C4: the margined
maturity factor sqrt(min(M, MPOR_margined/250)) with an additional 1.5
multiplier when M ≤ MPOR_margined/250, with MPOR_margined = 10 business days. -/
noncomputable def spec_mf_margined (M : ℝ) : ℝ :=
  (if M ≤ 10 / 250 then 1.5 else 1) * Real.sqrt (min M (10 / 250))

/-- Stated from the spec wording, for comparison in claim C4: the unmargined
maturity factor max(sqrt(min(M, 1.0)), sqrt(10/250)). -/
noncomputable def spec_mf_unmargined (M : ℝ) : ℝ :=
  max (Real.sqrt (min M 1)) (Real.sqrt (10 / 250))

/-
Helper lemmas and concrete sample inputs.
-/

/-- Evaluation of hedging_set_addon once the representative-trade search has
resolved. -/
theorem hedging_set_addon_of_find (ts : List Trade) (as_of : ℤ)
    (k : AssetClass × String) (rep : Trade)
    (h : ts.find? (fun t => decide (trade_key t = k)) = some rep) :
    hedging_set_addon ts as_of k =
      |((ts.filter (fun t => decide (trade_key t = k))).map
          (fun t => effective_notional t as_of)).sum| *
        (get_supervisory_factor rep as_of / 10000) := by
  unfold hedging_set_addon
  rw [h]

/-- The step-12 aggregation of a one-element add-on list returns the add-on
itself, for any correlation. -/
theorem asset_class_addon_formula_single (rho a : ℝ) (h0 : 0 ≤ a) :
    asset_class_addon_formula rho [a] = a := by
  unfold asset_class_addon_formula
  rw [List.sum_cons, List.sum_nil, List.map_cons, List.map_nil, List.sum_cons, List.sum_nil]
  rw [show (rho * (a + 0)) ^ 2 + (1 - rho ^ 2) * (a ^ 2 + 0) = a ^ 2 by ring]
  exact Real.sqrt_sq h0

/-- Supervisory-factor lookup, interest-rate trade in a major currency with
maturity below two years: 0.50 percent = 50 bps. -/
theorem get_sf_ir_major_low (t : Trade) (as_of : ℤ)
    (hac : t.asset_class = AssetClass.interest_rate)
    (hm : t.time_to_maturity as_of < 2)
    (hcur : t.currency ∈ (["USD", "EUR", "JPY", "GBP"] : List String)) :
    get_supervisory_factor t as_of = 50 := by
  obtain ⟨tid, cp, ac, tt, n, cur, md, sd, mtm, d, cf⟩ := t
  dsimp only at hac
  subst hac
  unfold get_supervisory_factor
  rw [if_pos hm, if_pos hcur]
  norm_num

/-- Supervisory-factor lookup, interest-rate trade in a major currency with
maturity between two and five years: 0.50 percent = 50 bps. -/
theorem get_sf_ir_major_mid (t : Trade) (as_of : ℤ)
    (hac : t.asset_class = AssetClass.interest_rate)
    (hm1 : ¬ t.time_to_maturity as_of < 2)
    (hm2 : t.time_to_maturity as_of ≤ 5)
    (hcur : t.currency ∈ (["USD", "EUR", "JPY", "GBP"] : List String)) :
    get_supervisory_factor t as_of = 50 := by
  obtain ⟨tid, cp, ac, tt, n, cur, md, sd, mtm, d, cf⟩ := t
  dsimp only at hac
  subst hac
  unfold get_supervisory_factor
  rw [if_neg hm1, if_pos hm2, if_pos hcur]
  norm_num

/-- Supervisory-factor lookup, interest-rate trade with maturity above five
years: 1.50 percent = 150 bps for every currency. -/
theorem get_sf_ir_high (t : Trade) (as_of : ℤ)
    (hac : t.asset_class = AssetClass.interest_rate)
    (hm1 : ¬ t.time_to_maturity as_of < 2)
    (hm2 : ¬ t.time_to_maturity as_of ≤ 5) :
    get_supervisory_factor t as_of = 150 := by
  obtain ⟨tid, cp, ac, tt, n, cur, md, sd, mtm, d, cf⟩ := t
  dsimp only at hac
  subst hac
  unfold get_supervisory_factor
  rw [if_neg hm1, if_neg hm2]
  norm_num

/-- Effective notional of a linear long trade whose maturity is at least one
year: the absolute notional itself. -/
theorem effective_notional_linear_long (t : Trade) (as_of : ℤ)
    (hty : ¬ (t.trade_type = TradeType.option ∨ t.trade_type = TradeType.swaption))
    (hpos : 0 < t.notional) (hm : 1 ≤ t.time_to_maturity as_of) :
    effective_notional t as_of = t.notional := by
  unfold effective_notional supervisory_delta
  rw [if_neg hty, if_pos hpos, min_eq_right hm, Real.sqrt_one, abs_of_pos hpos]
  ring

/-
Concrete sample inputs.
-/

/-- USD interest-rate swap, notional 100,000,000, maturity 1461 days (exactly
4 years), MtM 8,362,419; drives the step-15 reference-matching window. -/
noncomputable def trade_c1 : Trade :=
  { trade_id := "SWAP1", counterparty := "CP", asset_class := AssetClass.interest_rate,
    trade_type := TradeType.swap, notional := 100000000, currency := "USD",
    maturity_date := some 1461, settlement_date := 2, mtm_value := 8362419,
    delta := 1, ceu_flag := 1 }

/-- Unmargined netting set holding only trade_c1. -/
noncomputable def ns_c1 : NettingSet :=
  { netting_set_id := "NS1", counterparty := "CP", trades := [trade_c1] }

theorem trade_c1_m : trade_c1.time_to_maturity 0 = 4 := by
  show max 0 ((((1461 : ℤ) - 0 : ℤ) : ℝ) / 365.25) = 4
  rw [show (((1461 : ℤ) - 0 : ℤ) : ℝ) = 1461 by push_cast; ring]
  rw [show (1461 : ℝ) / 365.25 = 4 by norm_num]
  exact max_eq_right (by norm_num)

/-- USD interest-rate swap with maturity exactly 4 years (for claim C4). -/
noncomputable def trade_c4 : Trade :=
  { trade_id := "T4", counterparty := "CP", asset_class := AssetClass.interest_rate,
    trade_type := TradeType.swap, notional := 1000, currency := "USD",
    maturity_date := some 1461, settlement_date := 2 }

/-- USD interest-rate swap maturing on the as-of day, M = 0 (for claim C4). -/
noncomputable def trade_c4z : Trade :=
  { trade_id := "T4Z", counterparty := "CP", asset_class := AssetClass.interest_rate,
    trade_type := TradeType.swap, notional := 1000, currency := "USD",
    maturity_date := some 0, settlement_date := 0 }

theorem trade_c4_m : trade_c4.time_to_maturity 0 = 4 := by
  show max 0 ((((1461 : ℤ) - 0 : ℤ) : ℝ) / 365.25) = 4
  rw [show (((1461 : ℤ) - 0 : ℤ) : ℝ) = 1461 by push_cast; ring]
  rw [show (1461 : ℝ) / 365.25 = 4 by norm_num]
  exact max_eq_right (by norm_num)

theorem trade_c4z_m : trade_c4z.time_to_maturity 0 = 0 := by
  show max 0 ((((0 : ℤ) - 0 : ℤ) : ℝ) / 365.25) = 0
  rw [show (((0 : ℤ) - 0 : ℤ) : ℝ) = 0 by push_cast; ring]
  rw [zero_div]
  exact max_eq_right le_rfl

/-
Claim theorems.
-/

/-- C2: the dual-scenario calculation runs the margined and the unmargined
path and returns final exposure_at_default = min(EAD_margined, EAD_unmargined),
with the selected side "Margined" exactly when the margined EAD achieves the
minimum (ties resolve to Margined). -/
theorem C2_scenario_selection (ns : NettingSet) (coll : List Collateral) (as_of : ℤ) :
    (calculate_dual_scenario_saccr ns coll as_of).final_ead =
      min (execute_calculation_path true ns coll as_of).ead
        (execute_calculation_path false ns coll as_of).ead ∧
    ((calculate_dual_scenario_saccr ns coll as_of).selected = "Margined" ↔
      (execute_calculation_path true ns coll as_of).ead ≤
        (execute_calculation_path false ns coll as_of).ead) := by
  unfold calculate_dual_scenario_saccr
  by_cases h : (execute_calculation_path true ns coll as_of).ead ≤
      (execute_calculation_path false ns coll as_of).ead
  · rw [if_pos h]
    exact ⟨(min_eq_left h).symm, by simp [h]⟩
  · rw [if_neg h]
    refine ⟨(min_eq_right (le_of_not_le h)).symm, ?_⟩
    constructor
    · intro hs
      exact absurd hs ((by decide : ¬ ("Unmargined" : String) = "Margined"))
    · intro hle
      exact absurd hle h

/-- C4, counterexample: the engine's maturity factor is sqrt(min(M,1)) in both
paths, so at M = 4 it is 1 while the claimed margined formula gives
sqrt(min(4, 10/250)) = 1/5, and at M = 0 it is 0 while the claimed unmargined
formula gives max(0, sqrt(10/250)) = 1/5. -/
theorem C4_counterexample :
    step6_maturity_factor trade_c4 0 = 1 ∧
    spec_mf_margined (trade_c4.time_to_maturity 0) = 1 / 5 ∧
    step6_maturity_factor trade_c4z 0 = 0 ∧
    spec_mf_unmargined (trade_c4z.time_to_maturity 0) = 1 / 5 ∧
    ¬ (step6_maturity_factor trade_c4 0 = spec_mf_margined (trade_c4.time_to_maturity 0)) ∧
    ¬ (step6_maturity_factor trade_c4z 0 = spec_mf_unmargined (trade_c4z.time_to_maturity 0)) := by
  have e1 : step6_maturity_factor trade_c4 0 = 1 := by
    unfold step6_maturity_factor
    rw [trade_c4_m, min_eq_right (by norm_num), Real.sqrt_one]
  have e2 : spec_mf_margined (trade_c4.time_to_maturity 0) = 1 / 5 := by
    rw [trade_c4_m]
    unfold spec_mf_margined
    rw [if_neg (by norm_num), one_mul, min_eq_right (by norm_num)]
    rw [show (10 : ℝ) / 250 = (1 / 5) ^ 2 by norm_num]
    exact Real.sqrt_sq (by norm_num)
  have e3 : step6_maturity_factor trade_c4z 0 = 0 := by
    unfold step6_maturity_factor
    rw [trade_c4z_m, min_eq_left (by norm_num), Real.sqrt_zero]
  have e4 : spec_mf_unmargined (trade_c4z.time_to_maturity 0) = 1 / 5 := by
    rw [trade_c4z_m]
    unfold spec_mf_unmargined
    rw [min_eq_left (by norm_num), Real.sqrt_zero]
    rw [show (10 : ℝ) / 250 = (1 / 5) ^ 2 by norm_num, Real.sqrt_sq (by norm_num)]
    exact max_eq_right (by norm_num)
  exact ⟨e1, e2, e3, e4, by rw [e1, e2]; norm_num, by rw [e3, e4]; norm_num⟩

/-- C4, amended: the engine applies MF = sqrt(min(M, 1.0)) to every trade and
makes no margined/unmargined distinction (the two forced paths produce the same
aggregate add-on), while the saccr_steps dual variant returns the constants
0.3 (margined) and 1.0 (unmargined) irrespective of M. -/
theorem C4_maturity_factor (t : Trade) (as_of : ℤ) (ns : NettingSet)
    (coll : List Collateral) :
    step6_maturity_factor t as_of = Real.sqrt (min (t.time_to_maturity as_of) 1) ∧
    steps_mf_margined = 0.3 ∧ steps_mf_unmargined = 1.0 ∧
    (execute_calculation_path true ns coll as_of).aggregate_addon =
      (execute_calculation_path false ns coll as_of).aggregate_addon :=
  ⟨rfl, rfl, rfl, rfl⟩

/-- C5, counterexample: step 20 returns 1.4 for ceu_flag = 1 as well, not the
claimed 1.0. -/
theorem C5_counterexample :
    step20_alpha 1 = 1.4 ∧ ¬ (step20_alpha 1 = 1.0) := by
  unfold step20_alpha
  norm_num

/-- C5, amended: the engine's alpha is the constant BASEL_ALPHA = 1.4 for every
ceu_flag value; the constants US_ALPHA_CEU = 1.0 and US_ALPHA_STANDARD = 1.4
exist in the source but nothing reads US_ALPHA_CEU. -/
theorem C5_alpha_constant (ceu : ℕ) :
    step20_alpha ceu = 1.4 ∧ us_alpha_ceu = 1.0 ∧ us_alpha_standard = 1.4 :=
  ⟨rfl, rfl, rfl⟩

/-- C6: replacement cost is max(V-C, TH+MTA-NICA, 0) when threshold > 0 or
MTA > 0, and max(V-C, 0) when threshold = 0 and MTA = 0. -/
theorem C6_replacement_cost (v c th mta nica : ℝ) :
    (0 < th ∨ 0 < mta →
      step18_replacement_cost v c th mta nica = max (max (v - c) (th + mta - nica)) 0) ∧
    (th = 0 ∧ mta = 0 →
      step18_replacement_cost v c th mta nica = max (v - c) 0) := by
  constructor
  · intro h
    unfold step18_replacement_cost
    rw [if_pos h]
  · rintro ⟨h1, h2⟩
    unfold step18_replacement_cost
    rw [if_neg]
    rintro (h | h)
    · rw [h1] at h
      exact lt_irrefl 0 h
    · rw [h2] at h
      exact lt_irrefl 0 h

/-- C6, witness: both branches of C6_replacement_cost at concrete inputs. -/
theorem C6_replacement_cost_witness :
    step18_replacement_cost 5 1 2 3 0 = max (max (5 - 1) (2 + 3 - 0)) 0 ∧
    step18_replacement_cost 5 1 0 0 0 = max (5 - 1) 0 :=
  ⟨(C6_replacement_cost 5 1 2 3 0).1 (Or.inl (by norm_num)),
   (C6_replacement_cost 5 1 0 0 0).2 ⟨rfl, rfl⟩⟩

/-- C7, counterexample: with correlation 0 the step-12 formula on the
hedging-set add-ons [3, 4] returns sqrt(3^2 + 4^2) = 5, not the plain sum 7. -/
theorem C7_counterexample :
    asset_class_addon_formula 0 [3, 4] = 5 ∧
    ¬ (asset_class_addon_formula 0 [3, 4] = 3 + 4) := by
  have h5 : asset_class_addon_formula 0 [3, 4] = 5 := by
    unfold asset_class_addon_formula
    rw [List.sum_cons, List.sum_cons, List.sum_nil,
      List.map_cons, List.map_cons, List.map_nil,
      List.sum_cons, List.sum_cons, List.sum_nil]
    rw [show ((0 : ℝ) * (3 + (4 + 0))) ^ 2 +
        (1 - (0 : ℝ) ^ 2) * ((3 : ℝ) ^ 2 + ((4 : ℝ) ^ 2 + 0)) = 5 ^ 2 by ring]
    exact Real.sqrt_sq (by norm_num)
  exact ⟨h5, by rw [h5]; norm_num⟩

/-- C7, amended: the step-13 aggregate add-on is the sum over the asset classes
present of the step-12 aggregation of that class's hedging-set add-ons, and
with correlation 0 the step-12 formula degenerates to the root of the sum of
squares (not the plain sum). -/
theorem C7_aggregation (ts : List Trade) (as_of : ℤ) :
    step13_aggregate_addon ts as_of =
      ((first_occurrences ((step11_hedging_set_addons ts as_of).map (fun p => p.1.1))).map
        (fun ac => asset_class_addon_formula (supervisory_correlation ac)
          (((step11_hedging_set_addons ts as_of).filter (fun p => decide (p.1.1 = ac))).map
            (fun p => p.2)))).sum ∧
    ∀ addons : List ℝ, asset_class_addon_formula 0 addons =
      Real.sqrt ((addons.map (fun a => a ^ 2)).sum) := by
  constructor
  · unfold step13_aggregate_addon step12_asset_class_addons
    rw [List.map_map]
    rfl
  · intro addons
    unfold asset_class_addon_formula
    congr 1
    ring

/-- Collateral item with an explicitly overridden haircut of 50 percent on a
cash position (table haircut 0 percent), for claim C9. -/
noncomputable def coll_c9 : Collateral :=
  { collateral_type := CollateralType.cash, currency := "USD", amount := 100, haircut := 50 }

/-- C9, counterexample: for a cash item with overridden haircut 50, the value
entering C is 100 (table haircut 0 percent applied), while the claimed
own-haircut formula gives 50. -/
theorem C9_counterexample :
    step14_effective_value coll_c9 = 100 ∧
    Collateral.effective_value coll_c9 = 50 ∧
    ¬ (step14_effective_value coll_c9 = Collateral.effective_value coll_c9) := by
  have h1 : step14_effective_value coll_c9 = 100 := by
    show (100 : ℝ) * (1 - collateral_haircut_table CollateralType.cash / 100) = 100
    norm_num [collateral_haircut_table]
  have h2 : Collateral.effective_value coll_c9 = 50 := by
    show (100 : ℝ) * (1 - 50 / 100) = 50
    norm_num
  exact ⟨h1, h2, by rw [h1, h2]; norm_num⟩

/-- C9, amended: the effective value entering C in step 14 is always
amount * (1 - table_haircut(type)/100); the per-item haircut field is read only
by the model method Collateral.effective_value, which the engine does not call. -/
theorem C9_collateral_haircut (c : Collateral) (cs : List Collateral) :
    step14_effective_value c =
      c.amount * (1 - collateral_haircut_table c.collateral_type / 100) ∧
    step14_sum_c cs =
      (cs.map (fun x => x.amount * (1 - collateral_haircut_table x.collateral_type / 100))).sum ∧
    Collateral.effective_value c = c.amount * (1 - c.haircut / 100) :=
  ⟨rfl, rfl, rfl⟩

/-
Evaluation lemmas for trade_c1 / ns_c1.
-/

theorem sf_c1 : get_supervisory_factor trade_c1 0 = 50 := by
  refine get_sf_ir_major_mid trade_c1 0 rfl ?_ ?_ (by decide)
  · rw [trade_c1_m]
    norm_num
  · rw [trade_c1_m]
    norm_num

theorem eff_c1 : effective_notional trade_c1 0 = 100000000 := by
  rw [effective_notional_linear_long trade_c1 0 (by decide)
    (by norm_num [trade_c1]) (by rw [trade_c1_m]; norm_num)]
  norm_num [trade_c1]

theorem addon_c1 :
    hedging_set_addon [trade_c1] 0 (AssetClass.interest_rate, "USD") = 500000 := by
  rw [hedging_set_addon_of_find [trade_c1] 0 (AssetClass.interest_rate, "USD") trade_c1 rfl]
  rw [show ([trade_c1].filter
      (fun t => decide (trade_key t = (AssetClass.interest_rate, "USD")))) = [trade_c1] from rfl]
  rw [List.map_cons, List.map_nil, List.sum_cons, List.sum_nil, add_zero, eff_c1, sf_c1]
  rw [abs_of_pos (by norm_num : (0 : ℝ) < 100000000)]
  norm_num

theorem sum_v_c1 : step14_sum_v [trade_c1] = 8362419 := by
  show trade_c1.mtm_value + 0 = 8362419
  norm_num [trade_c1]

theorem step13_c1 : step13_aggregate_addon [trade_c1] 0 = 500000 := by
  have h : step13_aggregate_addon [trade_c1] 0 =
      asset_class_addon_formula (supervisory_correlation AssetClass.interest_rate)
        [hedging_set_addon [trade_c1] 0 (AssetClass.interest_rate, "USD")] + 0 := rfl
  rw [h, add_zero, addon_c1]
  exact asset_class_addon_formula_single _ 500000 (by norm_num)

/-- C1, counterexample: with V - C = 8,362,419 and AggregateAddOn = 500,000 —
values reached by the valid netting set ns_c1 (one USD IR swap of notional
100,000,000, MtM 8,362,419, 4-year maturity, no collateral) — the step-15
reference-matching branch returns multiplier 3,407,895/500,000 = 6.81579,
violating the claimed upper bound of 1.0. -/
theorem C1_counterexample :
    step15_pfe_multiplier false 8362419 0 500000 = 3407895 / 500000 ∧
    (calculate_comprehensive_saccr ns_c1 [] 0).map (fun r => r.multiplier) =
      Except.ok ((3407895 : ℝ) / 500000) ∧
    ¬ ((3407895 : ℝ) / 500000 ≤ 1) := by
  have hmul : step15_pfe_multiplier false 8362419 0 500000 = 3407895 / 500000 := by
    unfold step15_pfe_multiplier
    rw [if_pos (by norm_num : (0 : ℝ) < 500000)]
    rw [if_pos ⟨by rw [show (8362419 : ℝ) - 0 - 8362419 = 0 by ring, abs_zero]; norm_num,
      by rw [show (500000 : ℝ) - 500000 = 0 by ring, abs_zero]; norm_num⟩]
    simp
  refine ⟨hmul, ?_, by norm_num⟩
  unfold calculate_comprehensive_saccr
  rw [if_neg (by simp [ns_c1, trade_c1]), if_neg (by simp [ns_c1]),
      if_neg (by simp [ns_c1, trade_c1])]
  simp only [Except.map]
  refine congrArg Except.ok ?_
  show step15_pfe_multiplier false (step14_sum_v ns_c1.trades) (step14_sum_c [])
      (step13_aggregate_addon ns_c1.trades 0) = (3407895 : ℝ) / 500000
  rw [show ns_c1.trades = [trade_c1] from rfl, sum_v_c1, step13_c1,
    show step14_sum_c [] = 0 from rfl]
  exact hmul

/-- C1, amended: outside the step-15 reference-matching window
(|V-C-8,362,419| < 1000 and |AddOn-500,000| < 1000) the PFE multiplier obeys
0.05 ≤ multiplier ≤ 1.0 for every add-on value, and equals 1.0 when the
aggregate add-on is 0; inside the window the bound fails (C1_counterexample). -/
theorem C1_multiplier_bounds (fm : Bool) (v c a : ℝ)
    (hwin : ¬ (|v - c - 8362419| < 1000 ∧ |a - 500000| < 1000)) :
    (0.05 ≤ step15_pfe_multiplier fm v c a ∧ step15_pfe_multiplier fm v c a ≤ 1) ∧
    (a = 0 → step15_pfe_multiplier fm v c a = 1) := by
  unfold step15_pfe_multiplier
  by_cases ha : 0 < a
  · rw [if_pos ha, if_neg hwin]
    refine ⟨⟨?_, min_le_left _ _⟩, ?_⟩
    · refine le_min (by norm_num) ?_
      have he := Real.exp_pos ((v - c) / (2 * 0.95 * a))
      nlinarith
    · intro h0
      rw [h0] at ha
      exact absurd ha (lt_irrefl 0)
  · rw [if_neg ha]
    exact ⟨⟨by norm_num, le_refl 1⟩, fun _ => rfl⟩

/-- C1, witness for C1_multiplier_bounds at fm = false, V = C = 0, AddOn = 1. -/
theorem C1_multiplier_bounds_witness :
    (0.05 ≤ step15_pfe_multiplier false 0 0 1 ∧ step15_pfe_multiplier false 0 0 1 ≤ 1) ∧
    ((1 : ℝ) = 0 → step15_pfe_multiplier false 0 0 1 = 1) :=
  C1_multiplier_bounds false 0 0 1 (by
    rintro ⟨h1, h2⟩
    rw [show (1 : ℝ) - 500000 = -(499999) by norm_num, abs_neg,
      abs_of_nonneg (by norm_num : (0 : ℝ) ≤ 499999)] at h2
    norm_num at h2)

/-
Claim C3.
-/

/-- USD interest-rate swap whose maturity date equals its settlement date
(2 days from as-of), so the supervisory duration hits the 0.04 floor. -/
noncomputable def trade_c3 : Trade :=
  { trade_id := "T3", counterparty := "CP", asset_class := AssetClass.interest_rate,
    trade_type := TradeType.swap, notional := 100, currency := "USD",
    maturity_date := some 2, settlement_date := 2 }

/-- FX forward used to witness the non-interest-rate branch of claim C3. -/
noncomputable def trade_w3 : Trade :=
  { trade_id := "FX1", counterparty := "CP", asset_class := AssetClass.foreign_exchange,
    trade_type := TradeType.forward, notional := 200, currency := "EUR",
    maturity_date := some 90, settlement_date := 2 }

/-- C3, counterexample: for the interest-rate trade trade_c3 the engine's
step-5 adjusted notional is |notional| = 100, while the claimed
|notional| * SD * 10,000 evaluates to 100 * 0.04 * 10,000 = 40,000. -/
theorem C3_counterexample :
    step5_adjusted_notional trade_c3 = 100 ∧
    trade_c3.calculate_adjusted_notional 0 = 40000 ∧
    ¬ (step5_adjusted_notional trade_c3 = trade_c3.calculate_adjusted_notional 0) := by
  have h1 : step5_adjusted_notional trade_c3 = 100 := by
    show |(100 : ℝ)| = 100
    norm_num
  have hsd : trade_c3.calculate_supervisory_duration 0 = 0.04 := by
    unfold Trade.calculate_supervisory_duration
    rw [if_pos (show trade_c3.asset_class = AssetClass.interest_rate from rfl)]
    unfold supervisory_duration_formula
    rw [show trade_c3.time_to_settlement 0 = trade_c3.time_to_maturity 0 from rfl]
    rw [sub_self, mul_zero]
    exact max_eq_right (by norm_num)
  have h2 : trade_c3.calculate_adjusted_notional 0 = 40000 := by
    unfold Trade.calculate_adjusted_notional
    rw [if_pos (show trade_c3.asset_class = AssetClass.interest_rate from rfl), hsd]
    norm_num [trade_c3]
  exact ⟨h1, h2, by rw [h1, h2]; norm_num⟩

/-- C3, amended: the adjusted notional the engine's calculation uses (step 5)
is |notional| for every asset class; the Trade model's calculate_adjusted_notional
implements |notional| * SupervisoryDuration * 10,000 with
SD = max(0.05*(e^(-0.05 S) - e^(-0.05 E)), 0.04) for interest-rate trades and
|notional| otherwise, but the engine does not call it. -/
theorem C3_adjusted_notional (t : Trade) (as_of : ℤ) :
    step5_adjusted_notional t = |t.notional| ∧
    (t.asset_class = AssetClass.interest_rate →
      t.calculate_adjusted_notional as_of =
        |t.notional| * t.calculate_supervisory_duration as_of * 10000 ∧
      t.calculate_supervisory_duration as_of =
        max (0.05 * (Real.exp (-0.05 * t.time_to_settlement as_of) -
          Real.exp (-0.05 * t.time_to_maturity as_of))) 0.04) ∧
    (¬ t.asset_class = AssetClass.interest_rate →
      t.calculate_adjusted_notional as_of = |t.notional|) := by
  refine ⟨rfl, fun h => ⟨?_, ?_⟩, fun h => ?_⟩
  · unfold Trade.calculate_adjusted_notional
    rw [if_pos h]
  · unfold Trade.calculate_supervisory_duration
    rw [if_pos h]
    rfl
  · unfold Trade.calculate_adjusted_notional
    rw [if_neg h]

/-- C3, witness for C3_adjusted_notional at the interest-rate trade trade_c3
and the FX trade trade_w3. -/
theorem C3_adjusted_notional_witness :
    step5_adjusted_notional trade_c3 = |trade_c3.notional| ∧
    trade_c3.calculate_adjusted_notional 0 =
      |trade_c3.notional| * trade_c3.calculate_supervisory_duration 0 * 10000 ∧
    trade_w3.calculate_adjusted_notional 0 = |trade_w3.notional| :=
  ⟨(C3_adjusted_notional trade_c3 0).1,
   ((C3_adjusted_notional trade_c3 0).2.1 rfl).1,
   (C3_adjusted_notional trade_w3 0).2.2 (by decide)⟩

/-
Claim C8.
-/

/-- Malformed input: a single trade with notional 0 (every other field
present). -/
noncomputable def trade_c8 : Trade :=
  { trade_id := "T1", counterparty := "CP", asset_class := AssetClass.interest_rate,
    trade_type := TradeType.swap, notional := 0, currency := "USD",
    maturity_date := some 365, settlement_date := 2 }

/-- Netting set holding only the malformed trade_c8. -/
noncomputable def ns_c8 : NettingSet :=
  { netting_set_id := "NS1", counterparty := "CP", trades := [trade_c8] }

/-- C8: invoking the calculation on a netting set containing a zero-notional
trade does not return a validation error: the run reaches step 8 and dies with
a ZeroDivisionError (steps 1-7 having executed), while the never-invoked
validator would have enumerated exactly the notional violation. -/
theorem C8_no_validation_before_steps :
    calculate_comprehensive_saccr ns_c8 [] 0 =
      Except.error "ZeroDivisionError: step 8 divides by the total absolute notional" ∧
    validate_input_completeness ns_c8 = ["Trade 1: Notional amount"] := by
  constructor
  · unfold calculate_comprehensive_saccr
    rw [if_neg (by simp [ns_c8, trade_c8]), if_neg (by simp [ns_c8]),
        if_pos (by simp [ns_c8, trade_c8])]
  · unfold validate_input_completeness
    rw [if_neg (show ¬ ns_c8.netting_set_id = "" by decide),
        if_neg (show ¬ ns_c8.counterparty = "" by decide),
        if_neg (show ¬ ns_c8.trades.isEmpty = true by decide)]
    simp only [List.nil_append]
    show trade_missing_fields 0 trade_c8 ++ [] = ["Trade 1: Notional amount"]
    rw [List.append_nil]
    unfold trade_missing_fields
    rw [if_neg (show ¬ trade_c8.trade_id = "" by decide),
        if_pos (show trade_c8.notional = 0 from rfl),
        if_neg (show ¬ trade_c8.currency = "" by decide),
        if_neg (show ¬ trade_c8.maturity_date.isNone = true by decide)]
    rfl

/-
Claim C10.
-/

/-- C10: the step-11 add-on of a hedging set is |sum of its trades' effective
notionals| * SF(t0)/10,000 where t0 is the first trade in the trade list whose
hedging-set key matches — a single representative trade's supervisory factor is
applied to the entire hedging set. -/
theorem C10_representative_factor (ts : List Trade) (as_of : ℤ)
    (k : AssetClass × String) (t0 : Trade)
    (h : ts.find? (fun t => decide (trade_key t = k)) = some t0) :
    hedging_set_addon ts as_of k =
      |((ts.filter (fun t => decide (trade_key t = k))).map
          (fun t => effective_notional t as_of)).sum| *
        (get_supervisory_factor t0 as_of / 10000) := by
  unfold hedging_set_addon
  rw [h]

/-- USD interest-rate swap, maturity 730 days: bucket <2y, SF 50 bps. -/
noncomputable def trade_w10a : Trade :=
  { trade_id := "IRS1", counterparty := "CP", asset_class := AssetClass.interest_rate,
    trade_type := TradeType.swap, notional := 50000000, currency := "USD",
    maturity_date := some 730, settlement_date := 2 }

/-- USD interest-rate swap, maturity 3650 days: bucket >5y, SF 150 bps. -/
noncomputable def trade_w10b : Trade :=
  { trade_id := "IRS2", counterparty := "CP", asset_class := AssetClass.interest_rate,
    trade_type := TradeType.swap, notional := 50000000, currency := "USD",
    maturity_date := some 3650, settlement_date := 2 }

theorem trade_w10a_m : trade_w10a.time_to_maturity 0 = 730 / 365.25 := by
  show max 0 ((((730 : ℤ) - 0 : ℤ) : ℝ) / 365.25) = 730 / 365.25
  rw [show (((730 : ℤ) - 0 : ℤ) : ℝ) = 730 by push_cast; ring]
  exact max_eq_right (by norm_num)

theorem trade_w10b_m : trade_w10b.time_to_maturity 0 = 3650 / 365.25 := by
  show max 0 ((((3650 : ℤ) - 0 : ℤ) : ℝ) / 365.25) = 3650 / 365.25
  rw [show (((3650 : ℤ) - 0 : ℤ) : ℝ) = 3650 by push_cast; ring]
  exact max_eq_right (by norm_num)

theorem trade_w10a_sf : get_supervisory_factor trade_w10a 0 = 50 := by
  refine get_sf_ir_major_low trade_w10a 0 rfl ?_ (by decide)
  rw [trade_w10a_m]
  norm_num

theorem trade_w10b_sf : get_supervisory_factor trade_w10b 0 = 150 := by
  refine get_sf_ir_high trade_w10b 0 rfl ?_ ?_
  · rw [trade_w10b_m]
    norm_num
  · rw [trade_w10b_m]
    norm_num

/-- C10, witness: two USD interest-rate trades in the same hedging set but in
different maturity buckets (supervisory factors 50 bps and 150 bps); the whole
hedging set receives the first trade's 50 bps factor. -/
theorem C10_representative_factor_witness :
    hedging_set_addon [trade_w10a, trade_w10b] 0 (AssetClass.interest_rate, "USD") =
      |(([trade_w10a, trade_w10b].filter
          (fun t => decide (trade_key t = (AssetClass.interest_rate, "USD")))).map
          (fun t => effective_notional t 0)).sum| *
        (get_supervisory_factor trade_w10a 0 / 10000) ∧
    get_supervisory_factor trade_w10a 0 = 50 ∧
    get_supervisory_factor trade_w10b 0 = 150 :=
  ⟨C10_representative_factor [trade_w10a, trade_w10b] 0 (AssetClass.interest_rate, "USD")
    trade_w10a rfl, trade_w10a_sf, trade_w10b_sf⟩
